import Mathlib

/-!
Verification of the Ollama inline-completion lifecycle controller
(crates/ollama/src/ollama_completion_provider.rs).

Buffer text and model strings are modelled as lists of characters; byte
offsets of the Rust code are modelled as indices into that character
sequence.  Fallible or effectful collaborators (the chat HTTP client, the
telemetry sink, the logger) are modelled by explicit outcome parameters and
explicit event lists in the results.
-/

/-- Unicode white-space test used by the Rust functions str::trim,
str::trim_start and str::trim_end (the White_Space property). -/
def isRustWhitespace (c : Char) : Bool :=
  let n := c.toNat
  (9 ≤ n && n ≤ 13) || n == 32 || n == 0x85 || n == 0xA0 || n == 0x1680 ||
    (0x2000 ≤ n && n ≤ 0x200A) || n == 0x2028 || n == 0x2029 ||
    n == 0x202F || n == 0x205F || n == 0x3000

/-- Models Rust str::trim_start: drop leading white-space. -/
def trimStart (l : List Char) : List Char :=
  l.dropWhile isRustWhitespace

/-- Models Rust str::trim_end: drop trailing white-space. -/
def trimEnd (l : List Char) : List Char :=
  (l.reverse.dropWhile isRustWhitespace).reverse

/-- Models Rust str::trim: drop white-space at both ends. -/
def trim (l : List Char) : List Char :=
  trimEnd (trimStart l)

/-- The fill-in-the-middle tag for the text before the cursor. -/
def fimPrefixTag : List Char := "<fim_prefix>".data

/-- The fill-in-the-middle tag for the text after the cursor. -/
def fimSuffixTag : List Char := "<fim_suffix>".data

/-- The fill-in-the-middle tag for the generated middle segment. -/
def fimMiddleTag : List Char := "<fim_middle>".data

/-- Worker for `removeAll`.  The counter holds how many characters of an
already matched pattern occurrence remain to be consumed (and dropped);
when it is zero the scanner looks for the next occurrence at the current
position.  This realises the left-to-right, non-overlapping replacement
order of Rust str::replace with an empty replacement string. -/
def removeGo (pat : List Char) : List Char → Nat → List Char
  | [], _ => []
  | _ :: cs, Nat.succ k => removeGo pat cs k
  | c :: cs, 0 =>
    if pat.isPrefixOf (c :: cs) then removeGo pat cs (pat.length - 1)
    else c :: removeGo pat cs 0

/-- Models Rust content.replace(pat, "") for a non-empty pattern: delete
every left-to-right non-overlapping occurrence of `pat`. -/
def removeAll (pat : List Char) (l : List Char) : List Char :=
  removeGo pat l 0

/-- Models lines 111-120 of the source: the completion extracted from an
assistant message is the content with all fim_middle occurrences replaced
by the empty string, then all fim_prefix occurrences, then all fim_suffix
occurrences, and finally the result trimmed of surrounding white-space. -/
def sanitizeContent (content : List Char) : List Char :=
  trim (removeAll fimSuffixTag (removeAll fimPrefixTag (removeAll fimMiddleTag content)))

/-- Worker for `sanitizePerClaim`: a single left-to-right scan that deletes
an occurrence of whichever of the three tags starts at the current
position. -/
def stripGo : List Char → Nat → List Char
  | [], _ => []
  | _ :: cs, Nat.succ k => stripGo cs k
  | c :: cs, 0 =>
    if fimMiddleTag.isPrefixOf (c :: cs) then stripGo cs (fimMiddleTag.length - 1)
    else if fimPrefixTag.isPrefixOf (c :: cs) then stripGo cs (fimPrefixTag.length - 1)
    else if fimSuffixTag.isPrefixOf (c :: cs) then stripGo cs (fimSuffixTag.length - 1)
    else c :: stripGo cs 0

/-- Modelled from the spec wording of claim C4: the content with every
occurrence of the three tag tokens removed, regardless of their order in
the content (one simultaneous scan, so a removal never manufactures a new
occurrence out of spliced-together neighbours), then trimmed. -/
def sanitizePerClaim (content : List Char) : List Char :=
  trim (stripGo content 0)

/-- Models lines 69-76 of the source: the prompt built by refresh.  The
buffer text is split at the cursor offset; the format string of line 72 is
the literal "{}<fim_prefix>\n{}<fim_suffix>\n{}<fim_middle>" applied to the
right-trimmed text before the cursor, the left-trimmed text after the
cursor, and the empty string (the always-empty middle segment, kept here as
the empty list). -/
def buildPrompt (buffer_text : List Char) (cursor_offset : Nat) : List Char :=
  let pre := buffer_text.take cursor_offset
  let suf := buffer_text.drop cursor_offset
  trimEnd pre ++ "<fim_prefix>\n".data ++ trimStart suf ++ "<fim_suffix>\n".data
    ++ ([] : List Char) ++ "<fim_middle>".data

/-- Modelled from the wording of claim C2: the prompt with nothing but the
three tags between the trimmed segments, no other characters inserted. -/
def promptPerClaim (buffer_text : List Char) (cursor_offset : Nat) : List Char :=
  trimEnd (buffer_text.take cursor_offset) ++ fimPrefixTag
    ++ trimStart (buffer_text.drop cursor_offset) ++ fimSuffixTag ++ fimMiddleTag

/-- The model reference held by the provider (the fields of OllamaModel
beyond the name, such as display name or keep-alive configuration, are not
read by any of the embedded operations). -/
structure OllamaModel where
  name : List Char
deriving DecidableEq

/-- Keep-alive policy of a chat request; the code only ever uses the
default value (KeepAlive::default() at line 92). -/
inductive KeepAlive where
  | defaultPolicy
deriving DecidableEq

/-- A chat message, as in the ollama crate: a user message, an assistant
message carrying content and tool calls, or a system message.  The payload
of a tool call is never read by the provider, so it is a unit here. -/
inductive ChatMessage where
  | user (content : List Char)
  | assistant (content : List Char) (tool_calls : List Unit)
  | system (content : List Char)
deriving DecidableEq

/-- The chat request built at lines 86-98.  The options field of the source
holds only a floating-point sampling temperature (0.2), which no claim
refers to; it is omitted from the embedding. -/
structure ChatRequest where
  model : List Char
  messages : List ChatMessage
  stream : Bool
  keep_alive : KeepAlive
  tools : List Unit
deriving DecidableEq

/-- A successful chat response; only its message field is read. -/
structure ChatResponse where
  message : ChatMessage
deriving DecidableEq

/-- The result of the external chat call at line 101: either a response or
a transport or model error (carried as an opaque description). -/
inductive ChatOutcome where
  | ok (response : ChatResponse)
  | err (error : List Char)
deriving DecidableEq

/-- A telemetry event as emitted through
Telemetry::report_inline_completion_event at lines 161-165 and 174-178. -/
structure TelemetryEvent where
  provider : List Char
  accepted : Bool
  file_extension : Option (List Char)
deriving DecidableEq

/-- Diagnostic log entries emitted by the refresh body; the formatted
payloads are not modelled, only which log site fired. -/
inductive LogEvent where
  | chatError
  | unexpectedResponse
deriving DecidableEq

/-- The controller state (lines 12-19 of the source).  The replaceable
pending_refresh task handle is modelled as a generation counter: each call
to refresh spawns a task carrying a fresh generation and stores that
generation here.  The telemetry sink has no observable state of its own, so
only its presence is recorded; emitted events are returned explicitly by
the operations. -/
structure OllamaCompletionProvider where
  buffer_id : Option Nat
  current_completion : Option (List Char)
  file_extension : Option (List Char)
  pending : Nat
  model : OllamaModel
  telemetry : Option Unit
deriving DecidableEq

/-- Models OllamaCompletionProvider::new (lines 22-31): no suggestion, no
recorded buffer, no telemetry sink, and a ready (already completed)
pending task, represented by generation zero. -/
def OllamaCompletionProvider.new (model : OllamaModel) : OllamaCompletionProvider :=
  { buffer_id := none, current_completion := none, file_extension := none,
    pending := 0, model := model, telemetry := none }

/-- Models with_telemetry (lines 33-36). -/
def OllamaCompletionProvider.with_telemetry (s : OllamaCompletionProvider) : OllamaCompletionProvider :=
  { s with telemetry := some () }

/-- The fixed provider name returned by name() at lines 40-42. -/
def ollamaName : List Char := "ollama".data

/-- Anchor bias, as in the text crate: whether the position sticks to the
left or to the right of co-located insertions. -/
inductive Bias where
  | left
  | right
deriving DecidableEq

/-- A buffer anchor: a position together with its bias. -/
structure Anchor where
  offset : Nat
  bias : Bias
deriving DecidableEq

/-- Models Anchor::bias_right: the same position, right-biased. -/
def biasRight (a : Anchor) : Anchor :=
  { a with bias := Bias.right }

/-- An inlay proposal: a suggestion rendered at an anchor. -/
inductive InlayProposal where
  | suggestion (position : Anchor) (text : List Char)
deriving DecidableEq

/-- The render-ready proposal returned to the editor. -/
structure CompletionProposal where
  inlays : List InlayProposal
  text : List Char
  delete_range : Option (Nat × Nat)
deriving DecidableEq

/-- The chat request the refresh body sends (lines 86-98): the cloned model
name, a single user message holding the prompt, streaming disabled, the
default keep-alive policy and no tools. -/
def mkChatRequest (m : OllamaModel) (prompt : List Char) : ChatRequest :=
  { model := m.name, messages := [ChatMessage.user prompt], stream := false,
    keep_alive := KeepAlive.defaultPolicy, tools := [] }

/-- The spawned refresh task, as built by refresh before it is stored in
pending_refresh: its generation, the debounce flag it was started with, the
chat request it captured at spawn time (line 72 builds the prompt before
cx.spawn at line 79), and the entity id of the buffer it was started
for. -/
structure RefreshTask where
  id : Nat
  debounce : Bool
  request : ChatRequest
  buffer_entity : Nat
deriving DecidableEq

/-- Models the synchronous part of refresh (lines 57-79 and 145): read the
buffer text and cursor offset, build the prompt and the chat request,
spawn the task, and unconditionally replace the stored pending_refresh
handle with the new task (modelled by storing the fresh generation). -/
def refresh (s : OllamaCompletionProvider) (buffer_text : List Char)
    (cursor_offset : Nat) (debounce : Bool) (buffer_entity : Nat) :
    OllamaCompletionProvider × RefreshTask :=
  let prompt := buildPrompt buffer_text cursor_offset
  let task : RefreshTask :=
    { id := s.pending + 1, debounce := debounce,
      request := mkChatRequest s.model prompt, buffer_entity := buffer_entity }
  ({ s with pending := task.id }, task)

/-- Models lines 79-98 of the spawned task body: after the optional
debounce wait (lines 80-84) the task sends the request it captured when
refresh built it at line 72.  The buffer is not re-read after the wait, so
the arguments describing the buffer state at the end of the debounce
window are unused. -/
def sentRequest (t : RefreshTask) (_text_after_debounce : List Char)
    (_offset_after_debounce : Nat) : ChatRequest :=
  t.request

/-- The observable outcome of one run of the refresh task body: the
controller state afterwards, the telemetry events it emitted, the log
entries it wrote, and whether the body returned Ok to the executor. -/
structure RefreshFinish where
  state : OllamaCompletionProvider
  telemetry_events : List TelemetryEvent
  logs : List LogEvent
  returned_ok : Bool
deriving DecidableEq

/-- Models lines 100-144 of the refresh task body, from the chat call
onwards.  A failed call is logged and the body returns Ok (lines 101-108).
A non-assistant message is logged and the body returns Ok (lines 121-124).
An assistant message is sanitized; a non-empty result is published as the
active suggestion together with the entity id of the task buffer and the
extension of that buffer file at completion time (lines 127-142); an empty
result changes nothing.  No branch emits telemetry. -/
def handleResponse (s : OllamaCompletionProvider) (buffer_entity : Nat)
    (file_ext : Option (List Char)) (outcome : ChatOutcome) : RefreshFinish :=
  match outcome with
  | ChatOutcome.err _ =>
    { state := s, telemetry_events := [], logs := [LogEvent.chatError], returned_ok := true }
  | ChatOutcome.ok response =>
    match response.message with
    | ChatMessage.assistant content _ =>
      let completion := sanitizeContent content
      if completion.isEmpty then
        { state := s, telemetry_events := [], logs := [], returned_ok := true }
      else
        let published : OllamaCompletionProvider :=
          { s with current_completion := some completion,
                   buffer_id := some buffer_entity,
                   file_extension := file_ext }
        { state := published, telemetry_events := [], logs := [], returned_ok := true }
    | _ =>
      { state := s, telemetry_events := [], logs := [LogEvent.unexpectedResponse],
        returned_ok := true }

/-- The scheduler-level completion step for a refresh task.  Assigning
self.pending_refresh at line 79 drops the previously stored gpui Task, and
dropping a gpui Task cancels its future, so a superseded task body never
reaches its this.update call: only the task whose generation is still the
stored one can run to completion and mutate the controller. -/
def finishTask (s : OllamaCompletionProvider) (t : RefreshTask)
    (file_ext : Option (List Char)) (outcome : ChatOutcome) : OllamaCompletionProvider :=
  if t.id = s.pending then (handleResponse s t.buffer_entity file_ext outcome).state
  else s

/-- Models accept (lines 158-169): when a completion is current and a
telemetry sink is present, report one accepted event with the provider
name and the stored file extension; then clear the current completion
unconditionally. -/
def accept (s : OllamaCompletionProvider) : OllamaCompletionProvider × List TelemetryEvent :=
  let events :=
    if s.current_completion.isSome then
      match s.telemetry with
      | some _ => [({ provider := ollamaName, accepted := true,
                      file_extension := s.file_extension } : TelemetryEvent)]
      | none => []
    else []
  ({ s with current_completion := none }, events)

/-- Models discard (lines 171-182): when reporting is requested, a
completion is current and a telemetry sink is present, report one rejected
event; then clear the current completion unconditionally. -/
def OllamaCompletionProvider.discard (s : OllamaCompletionProvider)
    (should_report_inline_completion_event : Bool) :
    OllamaCompletionProvider × List TelemetryEvent :=
  let events :=
    if should_report_inline_completion_event && s.current_completion.isSome then
      match s.telemetry with
      | some _ => [({ provider := ollamaName, accepted := false,
                      file_extension := s.file_extension } : TelemetryEvent)]
      | none => []
    else []
  ({ s with current_completion := none }, events)

/-- Models active_completion_text (lines 184-203): nothing when the
queried buffer entity differs from the stored one (in particular when none
is stored); otherwise the current completion, when present, mapped to a
proposal holding one suggestion inlay at the right-biased cursor anchor,
the same text as plain replacement text, and no delete range. -/
def active_completion_text (s : OllamaCompletionProvider) (buffer_entity : Nat)
    (cursor_position : Anchor) : Option CompletionProposal :=
  if some buffer_entity ≠ s.buffer_id then none
  else
    s.current_completion.map fun completion =>
      { inlays := [InlayProposal.suggestion (biasRight cursor_position) completion],
        text := completion, delete_range := none }

/-- A sample model reference used by concrete witnesses. -/
def sampleModel : OllamaModel := { name := "llama3".data }

/-- A sample controller state with an active suggestion and a telemetry
sink, used by concrete witnesses. -/
def sampleActive : OllamaCompletionProvider :=
  { buffer_id := some 1, current_completion := some "done".data,
    file_extension := some "rs".data, pending := 4, model := sampleModel,
    telemetry := some () }

theorem isPrefixOf_self_append (l t : List Char) : l.isPrefixOf (l ++ t) = true := by
  induction l with
  | nil => simp
  | cons c l ih => simp [List.isPrefixOf_cons₂, ih]

theorem isPrefixOf_append_left (pat a b : List Char) (h : pat.length ≤ a.length) :
    pat.isPrefixOf (a ++ b) = pat.isPrefixOf a := by
  induction pat generalizing a with
  | nil => simp
  | cons p ps ih =>
    cases a with
    | nil => simp at h
    | cons c a =>
      simp only [List.cons_append, List.isPrefixOf_cons₂]
      rw [ih a (Nat.le_of_succ_le_succ (by simpa using h))]

theorem removeGo_skip (pat a l : List Char) :
    removeGo pat (a ++ l) a.length = removeGo pat l 0 := by
  induction a with
  | nil => rfl
  | cons c a ih => simpa [removeGo] using ih

theorem removeGo_cons_false (pat : List Char) (c : Char) (cs : List Char)
    (h : pat.isPrefixOf (c :: cs) = false) :
    removeGo pat (c :: cs) 0 = c :: removeGo pat cs 0 := by
  simp [removeGo, h]

theorem removeGo_no_head (h0 : Char) (pr la lb : List Char) (h : h0 ∉ la) :
    removeGo (h0 :: pr) (la ++ lb) 0 = la ++ removeGo (h0 :: pr) lb 0 := by
  induction la with
  | nil => rfl
  | cons c l ih =>
    have hc : h0 ≠ c := fun e => h (by rw [e]; exact List.mem_cons_self c l)
    have hl : h0 ∉ l := fun m => h (List.mem_cons_of_mem c m)
    have hbeq : (h0 == c) = false := beq_eq_false_iff_ne.mpr hc
    have hpf : (h0 :: pr).isPrefixOf (c :: (l ++ lb)) = false := by
      simp [List.isPrefixOf_cons₂, hbeq]
    calc removeGo (h0 :: pr) ((c :: l) ++ lb) 0
        = c :: removeGo (h0 :: pr) (l ++ lb) 0 := removeGo_cons_false _ _ _ hpf
      _ = (c :: l) ++ removeGo (h0 :: pr) lb 0 := by rw [ih hl]; rfl

theorem removeGo_self_append (p : Char) (ps l : List Char) :
    removeGo (p :: ps) ((p :: ps) ++ l) 0 = removeGo (p :: ps) l 0 := by
  have h : (p :: ps).isPrefixOf (p :: (ps ++ l)) = true := isPrefixOf_self_append (p :: ps) l
  show removeGo (p :: ps) (p :: (ps ++ l)) 0 = removeGo (p :: ps) l 0
  rw [removeGo, if_pos h]
  simpa using removeGo_skip (p :: ps) ps l

theorem fimPrefixTag_eq : fimPrefixTag = '<' :: "fim_prefix>".data := by decide

theorem fimMiddleTag_eq : fimMiddleTag = '<' :: "fim_middle>".data := by decide

theorem fimSuffixTag_eq : fimSuffixTag = '<' :: "fim_suffix>".data := by decide

theorem removeMiddle_block (x y : List Char) (hx : '<' ∉ x) (hy : '<' ∉ y) :
    removeAll fimMiddleTag (fimPrefixTag ++ (x ++ (fimMiddleTag ++ (y ++ fimSuffixTag))))
      = fimPrefixTag ++ (x ++ (y ++ fimSuffixTag)) := by
  have hnoP : '<' ∉ "fim_prefix>".data ++ x := by
    intro hmem
    rcases List.mem_append.mp hmem with hm | hm
    · revert hm; decide
    · exact hx hm
  have hpf : fimMiddleTag.isPrefixOf
      ('<' :: ("fim_prefix>".data ++ (x ++ (fimMiddleTag ++ (y ++ fimSuffixTag))))) = false := by
    rw [← List.cons_append, ← fimPrefixTag_eq, isPrefixOf_append_left _ _ _ (by decide)]
    decide
  have hmid : removeGo fimMiddleTag (fimMiddleTag ++ (y ++ fimSuffixTag)) 0
      = removeGo fimMiddleTag (y ++ fimSuffixTag) 0 := by
    rw [fimMiddleTag_eq]
    exact removeGo_self_append _ _ _
  have hy2 : removeGo fimMiddleTag (y ++ fimSuffixTag) 0 = y ++ fimSuffixTag := by
    rw [fimMiddleTag_eq, removeGo_no_head '<' _ _ _ hy, ← fimMiddleTag_eq]
    rw [show removeGo fimMiddleTag fimSuffixTag 0 = fimSuffixTag from by decide]
  show removeGo fimMiddleTag
      (fimPrefixTag ++ (x ++ (fimMiddleTag ++ (y ++ fimSuffixTag)))) 0
    = fimPrefixTag ++ (x ++ (y ++ fimSuffixTag))
  rw [fimPrefixTag_eq, List.cons_append]
  rw [removeGo_cons_false _ _ _ hpf]
  rw [← List.append_assoc]
  rw [fimMiddleTag_eq, removeGo_no_head '<' _ _ _ hnoP, ← fimMiddleTag_eq]
  rw [hmid, hy2]
  simp [List.append_assoc]

theorem removePrefix_block (x y : List Char) (hx : '<' ∉ x) (hy : '<' ∉ y) :
    removeAll fimPrefixTag (fimPrefixTag ++ (x ++ (y ++ fimSuffixTag)))
      = x ++ (y ++ fimSuffixTag) := by
  show removeGo fimPrefixTag (fimPrefixTag ++ (x ++ (y ++ fimSuffixTag))) 0
    = x ++ (y ++ fimSuffixTag)
  rw [fimPrefixTag_eq, removeGo_self_append]
  rw [removeGo_no_head '<' _ _ _ hx, removeGo_no_head '<' _ _ _ hy, ← fimPrefixTag_eq]
  rw [show removeGo fimPrefixTag fimSuffixTag 0 = fimSuffixTag from by decide]

theorem removeSuffix_block (x y : List Char) (hx : '<' ∉ x) (hy : '<' ∉ y) :
    removeAll fimSuffixTag (x ++ (y ++ fimSuffixTag)) = x ++ y := by
  show removeGo fimSuffixTag (x ++ (y ++ fimSuffixTag)) 0 = x ++ y
  rw [fimSuffixTag_eq, removeGo_no_head '<' _ _ _ hx, removeGo_no_head '<' _ _ _ hy,
    ← fimSuffixTag_eq]
  rw [show removeGo fimSuffixTag fimSuffixTag 0 = [] from by decide]
  simp

/-- Claim C1: last-writer-wins sequencing.  When a second refresh is
started while a first one is pending, the superseded first task can no
longer mutate the controller state once it would complete, because
replacing the stored pending task handle cancels it; in general a task
whose generation is not the currently pending one never mutates the
controller, so only the most recently started refresh can publish a
suggestion. -/
theorem refresh_last_writer_wins (s : OllamaCompletionProvider)
    (txt1 txt2 : List Char) (o1 o2 : Nat) (d1 d2 : Bool) (e1 e2 : Nat)
    (s3 : OllamaCompletionProvider) (t : RefreshTask)
    (file_ext : Option (List Char)) (outcome : ChatOutcome)
    (ht : t.id ≠ s3.pending) :
    finishTask (refresh (refresh s txt1 o1 d1 e1).1 txt2 o2 d2 e2).1
        (refresh s txt1 o1 d1 e1).2 file_ext outcome
      = (refresh (refresh s txt1 o1 d1 e1).1 txt2 o2 d2 e2).1
    ∧ finishTask s3 t file_ext outcome = s3 := by
  constructor
  · have hid : (refresh s txt1 o1 d1 e1).2.id
        ≠ ((refresh (refresh s txt1 o1 d1 e1).1 txt2 o2 d2 e2).1).pending := by
      have h1 : (refresh s txt1 o1 d1 e1).2.id = s.pending + 1 := rfl
      have h2 : ((refresh (refresh s txt1 o1 d1 e1).1 txt2 o2 d2 e2).1).pending
          = s.pending + 1 + 1 := rfl
      rw [h1, h2]
      omega
    simp [finishTask, hid]
  · simp [finishTask, ht]

/-- Witness for refresh_last_writer_wins at a concrete state, a pair of
concrete refresh calls, and a concrete stale task. -/
theorem refresh_last_writer_wins_witness :
    finishTask
        (refresh (refresh (OllamaCompletionProvider.new sampleModel) "ab".data 1 true 7).1
          "abc".data 2 true 7).1
        (refresh (OllamaCompletionProvider.new sampleModel) "ab".data 1 true 7).2
        (some "rs".data)
        (ChatOutcome.ok { message := ChatMessage.assistant "hi".data [] })
      = (refresh (refresh (OllamaCompletionProvider.new sampleModel) "ab".data 1 true 7).1
          "abc".data 2 true 7).1
    ∧ finishTask sampleActive
        { id := 9, debounce := false, request := mkChatRequest sampleModel [],
          buffer_entity := 1 }
        (some "rs".data)
        (ChatOutcome.ok { message := ChatMessage.assistant "hi".data [] })
      = sampleActive :=
  refresh_last_writer_wins (OllamaCompletionProvider.new sampleModel)
    "ab".data "abc".data 1 2 true true 7 7 sampleActive
    { id := 9, debounce := false, request := mkChatRequest sampleModel [],
      buffer_entity := 1 }
    (some "rs".data)
    (ChatOutcome.ok { message := ChatMessage.assistant "hi".data [] })
    (by decide)

/-- Claim C2 fails as stated: the format string of line 72 inserts a
newline after the fim_prefix tag and after the fim_suffix tag, so for
buffer text ab and cursor offset 1 the built prompt differs from the
concatenation the claim describes, in which nothing stands between the
segments and the tags. -/
theorem buildPrompt_claim_counterexample :
    buildPrompt "ab".data 1 ≠ promptPerClaim "ab".data 1 := by decide

/-- Claim C2 as amended: for all buffer text and cursor offsets in range,
the built prompt is the right-trimmed text before the cursor, the
fim_prefix tag followed by a newline, the left-trimmed text after the
cursor, the fim_suffix tag followed by a newline, and the fim_middle tag,
with an always-empty middle segment. -/
theorem buildPrompt_amended (txt : List Char) (o : Nat) (ho : o ≤ txt.length) :
    buildPrompt txt o
      = trimEnd (txt.take o) ++ "<fim_prefix>\n".data ++ trimStart (txt.drop o)
          ++ "<fim_suffix>\n".data ++ "<fim_middle>".data := by
  simp [buildPrompt]

/-- Witness for buildPrompt_amended at buffer text ab and offset 1. -/
theorem buildPrompt_amended_witness :
    1 ≤ "ab".data.length ∧ buildPrompt "ab".data 1
      = trimEnd ("ab".data.take 1) ++ "<fim_prefix>\n".data ++ trimStart ("ab".data.drop 1)
          ++ "<fim_suffix>\n".data ++ "<fim_middle>".data :=
  ⟨by decide, buildPrompt_amended "ab".data 1 (by decide)⟩

/-- Claim C3 fails as stated: the buffer text and cursor offset are read
and the prompt is built at lines 66-76, before cx.spawn at line 79 and
hence before the debounce wait inside the task body; the request the task
eventually sends is the one captured at invocation time.  Concretely, when
the buffer held ab with the cursor at offset 2 as refresh was invoked and
holds abc with the cursor at offset 3 when the debounce window ends, the
request sent carries the prompt built from ab at 2, not from abc at 3 as
the claim requires. -/
theorem refresh_snapshot_counterexample :
    sentRequest (refresh (OllamaCompletionProvider.new sampleModel) "ab".data 2 true 1).2
        "abc".data 3
      ≠ mkChatRequest sampleModel (buildPrompt "abc".data 3) := by decide

/-- Claim C3 as amended: for every refresh call, debounced or not, the
prompt sent to the model is built from the buffer text and cursor offset
captured at the moment refresh was invoked; the buffer state at the end of
the debounce window does not enter the request. -/
theorem refresh_snapshot_amended (s : OllamaCompletionProvider)
    (txt : List Char) (o : Nat) (d : Bool) (e : Nat)
    (txt_after : List Char) (o_after : Nat) :
    sentRequest (refresh s txt o d e).2 txt_after o_after
      = mkChatRequest s.model (buildPrompt txt o) := rfl

/-- Claim C4 fails as stated: tag removal is not order-independent.  For
content <fim_pre<fim_middle>fix>, the only tag token occurring in the
content is the fim_middle tag, and removing every occurrence of the three
tags from the content itself leaves <fim_prefix> behind; the sequential
removal of lines 114-117 (middle first, then prefix, then suffix) instead
splices the surrounding text into a new fim_prefix occurrence and deletes
it too, producing the empty string. -/
theorem sanitize_claim_counterexample :
    sanitizeContent "<fim_pre<fim_middle>fix>".data = []
    ∧ sanitizePerClaim "<fim_pre<fim_middle>fix>".data = "<fim_prefix>".data := by
  constructor <;> decide

/-- Claim C4 as amended: the sanitized completion is the content with all
fim_middle occurrences removed first, then all fim_prefix occurrences,
then all fim_suffix occurrences, then surrounding white-space trimmed;
when the segments between the tags contain no < character the removals
cannot interact, and content assembled as fim_prefix tag, x, fim_middle
tag, y, fim_suffix tag sanitizes to the trim of x followed by y - in the
claim instance, xy. -/
theorem sanitize_amended (x y : List Char) (hx : '<' ∉ x) (hy : '<' ∉ y) :
    sanitizeContent (fimPrefixTag ++ x ++ fimMiddleTag ++ y ++ fimSuffixTag)
      = trim (x ++ y) := by
  have hassoc : fimPrefixTag ++ x ++ fimMiddleTag ++ y ++ fimSuffixTag
      = fimPrefixTag ++ (x ++ (fimMiddleTag ++ (y ++ fimSuffixTag))) := by
    simp [List.append_assoc]
  unfold sanitizeContent
  rw [hassoc, removeMiddle_block x y hx hy, removePrefix_block x y hx hy,
    removeSuffix_block x y hx hy]

/-- Witness for sanitize_amended at the claim instance x, y. -/
theorem sanitize_amended_witness :
    ('<' ∉ ['x']) ∧ ('<' ∉ ['y'])
    ∧ sanitizeContent (fimPrefixTag ++ ['x'] ++ fimMiddleTag ++ ['y'] ++ fimSuffixTag)
        = trim (['x'] ++ ['y']) :=
  ⟨by decide, by decide, sanitize_amended ['x'] ['y'] (by decide) (by decide)⟩

/-- Claim C5: a refresh whose sanitized completion is empty publishes
nothing: the controller state is left exactly as it was, no telemetry and
no log entry is emitted, and the body returns Ok; in particular an empty
completion never clears an existing active suggestion. -/
theorem empty_completion_no_publish (s : OllamaCompletionProvider)
    (buffer_entity : Nat) (file_ext : Option (List Char))
    (content : List Char) (tool_calls : List Unit)
    (h : sanitizeContent content = []) :
    handleResponse s buffer_entity file_ext
        (ChatOutcome.ok { message := ChatMessage.assistant content tool_calls })
      = { state := s, telemetry_events := [], logs := [], returned_ok := true } := by
  simp [handleResponse, h]

/-- Witness for empty_completion_no_publish: an all-tag, all-white-space
content arriving while a suggestion is active leaves the state intact. -/
theorem empty_completion_no_publish_witness :
    sanitizeContent " <fim_middle> ".data = []
    ∧ handleResponse sampleActive 2 (some "py".data)
        (ChatOutcome.ok { message := ChatMessage.assistant " <fim_middle> ".data [] })
      = { state := sampleActive, telemetry_events := [], logs := [], returned_ok := true } :=
  ⟨by decide,
   empty_completion_no_publish sampleActive 2 (some "py".data) " <fim_middle> ".data []
     (by decide)⟩

/-- Claim C6: a failed chat call, and a response whose message is not an
assistant message, end the refresh with the body returning Ok to the
executor (nothing is raised to the caller), no state change, no suggestion
published, no telemetry, and only a log entry recording the failure. -/
theorem failed_chat_no_mutation (s : OllamaCompletionProvider)
    (buffer_entity : Nat) (file_ext : Option (List Char))
    (error content_u content_s : List Char) :
    handleResponse s buffer_entity file_ext (ChatOutcome.err error)
      = { state := s, telemetry_events := [], logs := [LogEvent.chatError],
          returned_ok := true }
    ∧ handleResponse s buffer_entity file_ext
        (ChatOutcome.ok { message := ChatMessage.user content_u })
      = { state := s, telemetry_events := [], logs := [LogEvent.unexpectedResponse],
          returned_ok := true }
    ∧ handleResponse s buffer_entity file_ext
        (ChatOutcome.ok { message := ChatMessage.system content_s })
      = { state := s, telemetry_events := [], logs := [LogEvent.unexpectedResponse],
          returned_ok := true } :=
  ⟨rfl, rfl, rfl⟩

/-- Claim C7: active_completion_text returns nothing when no suggestion is
stored or when the stored buffer identity differs from the queried one;
otherwise it returns a proposal whose single inlay sits at the
right-biased cursor anchor and carries the stored completion, whose plain
replacement text is that same completion, and which has no delete range. -/
theorem active_completion_text_spec (s : OllamaCompletionProvider)
    (buffer_entity : Nat) (cursor : Anchor) :
    ((s.current_completion = none ∨ s.buffer_id ≠ some buffer_entity) →
      active_completion_text s buffer_entity cursor = none)
    ∧ (∀ c : List Char, s.buffer_id = some buffer_entity → s.current_completion = some c →
        active_completion_text s buffer_entity cursor
          = some { inlays := [InlayProposal.suggestion (biasRight cursor) c],
                   text := c, delete_range := none }) := by
  constructor
  · intro h
    rcases h with h | h
    · by_cases hb : some buffer_entity = s.buffer_id
      · simp [active_completion_text, hb, h]
      · simp [active_completion_text, hb]
    · have hb : some buffer_entity ≠ s.buffer_id := fun e => h e.symm
      simp [active_completion_text, hb]
  · intro c hb hc
    simp [active_completion_text, hb, hc]

/-- Witness for active_completion_text_spec: the stored suggestion is
returned for the matching buffer and withheld for a different one. -/
theorem active_completion_text_spec_witness :
    active_completion_text sampleActive 1 { offset := 0, bias := Bias.left }
      = some { inlays := [InlayProposal.suggestion
                 (biasRight { offset := 0, bias := Bias.left }) "done".data],
               text := "done".data, delete_range := none }
    ∧ active_completion_text sampleActive 2 { offset := 0, bias := Bias.left } = none :=
  ⟨(active_completion_text_spec sampleActive 1 { offset := 0, bias := Bias.left }).2
      "done".data (by decide) (by decide),
   (active_completion_text_spec sampleActive 2 { offset := 0, bias := Bias.left }).1
      (Or.inr (by decide))⟩

/-- Claim C8: accept emits exactly one accepted telemetry event carrying
the fixed provider name and the stored file-extension tag precisely when a
suggestion is active and a telemetry sink is present, emits nothing when
no suggestion is active, and always leaves the stored completion
cleared. -/
theorem accept_spec (s : OllamaCompletionProvider) :
    ((accept s).2 = [{ provider := ollamaName, accepted := true,
                       file_extension := s.file_extension }]
      ↔ (s.current_completion.isSome = true ∧ s.telemetry.isSome = true))
    ∧ (accept s).1.current_completion = none
    ∧ (s.current_completion = none → (accept s).2 = []) := by
  refine ⟨?_, rfl, ?_⟩
  · cases hc : s.current_completion <;> cases ht : s.telemetry <;>
      simp [accept, hc, ht]
  · intro h
    simp [accept, h]

/-- Witness for accept_spec at a state with an active suggestion and a
telemetry sink. -/
theorem accept_spec_witness :
    (accept sampleActive).2 = [{ provider := ollamaName, accepted := true,
                                 file_extension := sampleActive.file_extension }]
    ∧ (accept sampleActive).1.current_completion = none :=
  ⟨((accept_spec sampleActive).1).mpr (by decide), (accept_spec sampleActive).2.1⟩

/-- Claim C9: discard clears the stored completion unconditionally, and
emits exactly one rejected telemetry event precisely when reporting was
requested, a suggestion is active and a telemetry sink is present; with
reporting disabled it emits nothing even when a suggestion was active. -/
theorem discard_spec (s : OllamaCompletionProvider) (should_report : Bool) :
    ((s.discard should_report).2
        = [{ provider := ollamaName, accepted := false,
             file_extension := s.file_extension }]
      ↔ (should_report = true ∧ s.current_completion.isSome = true
          ∧ s.telemetry.isSome = true))
    ∧ (s.discard should_report).1.current_completion = none
    ∧ (should_report = false → (s.discard should_report).2 = []) := by
  refine ⟨?_, rfl, ?_⟩
  · cases should_report <;> cases hc : s.current_completion <;> cases ht : s.telemetry <;>
      simp [OllamaCompletionProvider.discard, hc, ht]
  · intro h
    subst h
    simp [OllamaCompletionProvider.discard]

/-- Witness for discard_spec at a state with an active suggestion and a
telemetry sink, for both values of the reporting flag. -/
theorem discard_spec_witness :
    (sampleActive.discard false).2 = []
    ∧ (sampleActive.discard false).1.current_completion = none
    ∧ (sampleActive.discard true).2
        = [{ provider := ollamaName, accepted := false,
             file_extension := sampleActive.file_extension }] :=
  ⟨(discard_spec sampleActive false).2.2 rfl,
   (discard_spec sampleActive false).2.1,
   ((discard_spec sampleActive true).1).mpr (by decide)⟩

/-- Claim C10: accept and discard modify only the current completion: the
recorded buffer identity, file-extension tag, model reference, telemetry
sink and pending generation are all unchanged by both operations. -/
theorem accept_discard_frame (s : OllamaCompletionProvider) (should_report : Bool) :
    (accept s).1.buffer_id = s.buffer_id
    ∧ (accept s).1.file_extension = s.file_extension
    ∧ (accept s).1.model = s.model
    ∧ (accept s).1.telemetry = s.telemetry
    ∧ (accept s).1.pending = s.pending
    ∧ (s.discard should_report).1.buffer_id = s.buffer_id
    ∧ (s.discard should_report).1.file_extension = s.file_extension
    ∧ (s.discard should_report).1.model = s.model
    ∧ (s.discard should_report).1.telemetry = s.telemetry
    ∧ (s.discard should_report).1.pending = s.pending :=
  ⟨rfl, rfl, rfl, rfl, rfl, rfl, rfl, rfl, rfl, rfl⟩
